import Mathlib

/-!
Verification development for the maple_idle_bot repository.

The embedding models, from the Python source:
 - `find_template` / `detect_state` from `image_detector.py` (the template
   matcher's raw confidence score and match center are abstracted as oracles
   attached to a `Detector`, standing for one captured frame against one
   loaded template set);
 - `_react_to_state`, `_complete_dungeon`, the poll loop guards of `run`,
   `_get_active_elapsed_seconds` and the pause toggle of `_keyboard_listener`
   from `main.py`;
 - the identifier inventory of `config.py` and the `from config import ...`
   line of `adb_controller.py`.

Times and confidences are rationals; wall-clock instants are passed
explicitly where the Python calls `time.time()` / `datetime.now()`.
-/

/-! ## Template and button names (string literals used by the source) -/

def tplSleepScreen : String := "sleep_screen"

def tplNoticeBanner : String := "notice_banner"

def tplAutoMatchBtn : String := "auto_match_btn"

def tplClearScreen : String := "clear_screen"

def tplAcceptBtn : String := "accept_btn"

def tplLeaveBtn : String := "leave_btn"

def tplMatchmaking : String := "matchmaking"

def tplMinimap : String := "minimap"

def btnAutoMatch : String := "auto_match"

def btnEnter : String := "enter"

def btnAccept : String := "accept"

def btnLeave : String := "leave"

def btnOk : String := "ok"

def btnCancelQueue : String := "cancel_queue"

/-! ## Constants from config.py and main.py -/

def MATCH_THRESHOLD : ℚ := 9 / 10

def QUEUE_TIMEOUT : ℚ := 180

def inactivityTimeout : ℚ := 30 * 60

def maxRuntime : ℚ := 8 * 60 * 60

/-! ## State inference engine (image_detector.py) -/

/-- Result quadruple of `ImageDetector.find_template`. -/
structure MatchResult where
  found : Bool
  cx : ℕ
  cy : ℕ
  conf : ℚ
deriving DecidableEq, Repr

/-- One captured frame against one loaded template set.  `templates` is the
set of loaded template names; `confOf` is the normalized cross-correlation
maximum `max_val` that `cv2.matchTemplate` reports for a template on this
frame, and `centerOf` the matched center mapped back to full resolution.
Both are oracles for the external OpenCV computation. -/
structure Detector where
  templates : List String
  confOf : String → ℚ
  centerOf : String → ℕ × ℕ

/-- `ImageDetector.find_template`: a missing template yields
`(False, 0, 0, 0.0)`; a present one matches iff `max_val >= MATCH_THRESHOLD`. -/
def find_template (d : Detector) (name : String) : MatchResult :=
  if name ∈ d.templates then
    if d.confOf name ≥ MATCH_THRESHOLD then
      ⟨true, (d.centerOf name).1, (d.centerOf name).2, d.confOf name⟩
    else
      ⟨false, 0, 0, d.confOf name⟩
  else
    ⟨false, 0, 0, 0⟩

/-- The strings returned by `ImageDetector.detect_state`. -/
inductive ScreenState where
  | READY
  | QUEUING
  | MATCH_FOUND
  | IN_DUNGEON
  | CLEAR
  | ERROR_DIALOG
  | SLEEP_SCREEN
  | UNKNOWN
deriving DecidableEq, Repr

/-- `ImageDetector.detect_state`: the fixed priority cascade. -/
def detect_state (d : Detector) : ScreenState :=
  if (find_template d tplSleepScreen).found then .SLEEP_SCREEN
  else if (find_template d tplNoticeBanner).found then .ERROR_DIALOG
  else if (find_template d tplAutoMatchBtn).found then .READY
  else if (find_template d tplClearScreen).found then .CLEAR
  else if (find_template d tplAcceptBtn).found ∧ (find_template d tplLeaveBtn).found then
    (if (find_template d tplAcceptBtn).conf > (find_template d tplLeaveBtn).conf then
      .MATCH_FOUND else .CLEAR)
  else if (find_template d tplAcceptBtn).found then .MATCH_FOUND
  else if (find_template d tplLeaveBtn).found then .CLEAR
  else if (find_template d tplMatchmaking).found then .QUEUING
  else if (find_template d tplMinimap).found then .IN_DUNGEON
  else .UNKNOWN

/-! ## Spec-side priority table (for the refinement statement of C2).
Modelled from the spec: an ordered list of signals, each with a firing
condition and a resulting state; classification picks the first signal that
fires and returns UNKNOWN when none does. -/

inductive Signal where
  | sleepScreen
  | noticeBanner
  | autoMatch
  | clearBanner
  | acceptLeave
  | queueIndicator
  | minimap
deriving DecidableEq, Repr

def signalOrder : List Signal :=
  [.sleepScreen, .noticeBanner, .autoMatch, .clearBanner, .acceptLeave,
   .queueIndicator, .minimap]

def signalFires (d : Detector) : Signal → Bool
  | .sleepScreen => (find_template d tplSleepScreen).found
  | .noticeBanner => (find_template d tplNoticeBanner).found
  | .autoMatch => (find_template d tplAutoMatchBtn).found
  | .clearBanner => (find_template d tplClearScreen).found
  | .acceptLeave =>
      (find_template d tplAcceptBtn).found || (find_template d tplLeaveBtn).found
  | .queueIndicator => (find_template d tplMatchmaking).found
  | .minimap => (find_template d tplMinimap).found

def signalState (d : Detector) : Signal → ScreenState
  | .sleepScreen => .SLEEP_SCREEN
  | .noticeBanner => .ERROR_DIALOG
  | .autoMatch => .READY
  | .clearBanner => .CLEAR
  | .acceptLeave =>
      if (find_template d tplAcceptBtn).found ∧ (find_template d tplLeaveBtn).found then
        (if (find_template d tplAcceptBtn).conf > (find_template d tplLeaveBtn).conf then
          ScreenState.MATCH_FOUND else ScreenState.CLEAR)
      else if (find_template d tplAcceptBtn).found then .MATCH_FOUND
      else .CLEAR
  | .queueIndicator => .QUEUING
  | .minimap => .IN_DUNGEON

/-- Modelled from the spec: first-firing-signal classification over the
ordered priority table. -/
def specPriorityClassify (d : Detector) : ScreenState :=
  match signalOrder.find? (signalFires d) with
  | some sg => signalState d sg
  | none => .UNKNOWN

/-! ## Reactive controller (main.py) -/

/-- `BotState` enum of main.py. -/
inductive BotState where
  | IDLE
  | QUEUING
  | MATCH_FOUND
  | IN_DUNGEON
  | CLEAR
  | STOPPED
deriving DecidableEq, Repr

/-- The controller fields of `PartyQuestBot` touched by `_react_to_state`. -/
structure BotS where
  state : BotState
  clear_count : ℕ
  queue_start : ℚ
  dungeon_start : ℚ
  last_clear_time : ℚ
  last_clear_counted : Bool
  group_mode : Bool
deriving DecidableEq, Repr

/-- `self.queue_button`: "enter" in group mode, "auto_match" otherwise. -/
def queueButtonName (s : BotS) : String :=
  if s.group_mode then btnEnter else btnAutoMatch

/-- `PartyQuestBot._complete_dungeon`. -/
def completeDungeon (s : BotS) (now : ℚ) : BotS :=
  { s with
    clear_count := s.clear_count + 1
    last_clear_time := now
    last_clear_counted := true
    state := .IDLE }

/-- `PartyQuestBot._react_to_state`.  `now` stands for `time.time()` during
this reaction; `screenTime` is the value of the OCR collaborator
`read_matchmaking_time` (modelled from the spec: `readElapsedQueueSeconds ->
seconds | 0`, 0 meaning unreadable; the method is called in main.py but not
defined under src/).  The second component lists the buttons tapped, in
order. -/
def react (s : BotS) (d : ScreenState) (now screenTime : ℚ) : BotS × List String :=
  match d with
  | .READY =>
      let s1 :=
        if s.state = BotState.IN_DUNGEON ∧ s.last_clear_counted = false ∧
            now - s.dungeon_start > 30 then
          completeDungeon s now
        else s
      ({ s1 with
          state := .QUEUING
          queue_start := now
          last_clear_counted := false }, [queueButtonName s])
  | .MATCH_FOUND =>
      ({ s with
          state := .IN_DUNGEON
          dungeon_start := now
          last_clear_counted := false }, [btnAccept])
  | .CLEAR =>
      let s1 := if s.last_clear_counted = false then completeDungeon s now else s
      (s1, [btnLeave])
  | .ERROR_DIALOG =>
      ({ s with state := .IDLE }, [btnOk])
  | .QUEUING =>
      if screenTime > 0 then
        if screenTime > QUEUE_TIMEOUT then
          ({ s with state := .IDLE }, [btnCancelQueue])
        else
          ({ s with state := .QUEUING }, [btnAccept])
      else
        if now - s.queue_start > QUEUE_TIMEOUT then
          ({ s with state := .IDLE }, [btnCancelQueue])
        else
          ({ s with state := .QUEUING }, [btnAccept])
  | .IN_DUNGEON =>
      ({ s with state := .IN_DUNGEON }, [])
  | .SLEEP_SCREEN =>
      (s, [])
  | .UNKNOWN =>
      if screenTime > 0 then
        if screenTime > QUEUE_TIMEOUT then
          ({ s with state := .IDLE }, [btnCancelQueue])
        else
          ({ s with state := .QUEUING }, [btnAccept])
      else if s.state = BotState.QUEUING then
        (s, [btnAccept])
      else if s.state = BotState.IN_DUNGEON then
        (s, [])
      else
        (s, [btnAccept, btnLeave])

/-- Fold `_react_to_state` over a list of polls `(detected, now, screenTime)`,
keeping only the controller state. -/
def foldReact (s : BotS) (polls : List (ScreenState × ℚ × ℚ)) : BotS :=
  polls.foldl (fun b p => (react b p.1 p.2.1 p.2.2).1) s

/-! ## Poll loop of `PartyQuestBot.run` and the session/lifecycle fields -/

/-- Loop-level fields of `PartyQuestBot`: the cooperative `running` flag,
the pause bookkeeping and the session timer, around the controller state. -/
structure LoopState where
  running : Bool
  paused : Bool
  sessionStart : ℚ
  totalPaused : ℚ
  pauseStart : Option ℚ
  bot : BotS
deriving DecidableEq, Repr

/-- `PartyQuestBot._get_active_elapsed_seconds`. -/
def activeElapsed (st : LoopState) (now : ℚ) : ℚ :=
  (now - st.sessionStart) -
    (st.totalPaused +
      (match st.pauseStart with
       | some p => if st.paused then now - p else 0
       | none => 0))

/-- The `key == 'p'` branch of `PartyQuestBot._keyboard_listener`. -/
def togglePause (st : LoopState) (now : ℚ) : LoopState :=
  if st.paused then
    match st.pauseStart with
    | some p =>
        { st with
            paused := false
            totalPaused := st.totalPaused + (now - p)
            pauseStart := none
            bot := { st.bot with
                       last_clear_time := st.bot.last_clear_time + (now - p) } }
    | none => { st with paused := false }
  else
    { st with paused := true, pauseStart := some now }

/-- One iteration of the `while self.running` loop of `PartyQuestBot.run`:
paused iterations only sleep; otherwise the inactivity guard, then the
max-runtime guard run before `_react_to_state` dispatch. -/
def pollIter (st : LoopState) (now : ℚ) (d : ScreenState) (q : ℚ) : LoopState :=
  if st.running then
    if st.paused then st
    else if now - st.bot.last_clear_time > inactivityTimeout then
      { st with running := false }
    else if activeElapsed st now > maxRuntime then
      { st with running := false }
    else
      { st with bot := (react st.bot d now q).1 }
  else st

/-- The poll loop over a trace of `(now, detected, screenTime)` polls. -/
def runLoop (st : LoopState) (polls : List (ℚ × ScreenState × ℚ)) : LoopState :=
  polls.foldl (fun s p => pollIter s p.1 p.2.1 p.2.2) st

/-- A poll trace that observes `IN_DUNGEON` at each of the given instants
(the reaction that never advances `last_clear_time`). -/
def dungeonTrace (ts : List ℚ) : List (ℚ × ScreenState × ℚ) :=
  ts.map (fun t => (t, ScreenState.IN_DUNGEON, 0))

/-- Controller fields as set by `PartyQuestBot.__init__` at session start
`t0` (`last_clear_time = time.time()`, zeroed timers and counter). -/
def initBot (t0 : ℚ) (gm : Bool) : BotS :=
  { state := .IDLE
    clear_count := 0
    queue_start := 0
    dungeon_start := 0
    last_clear_time := t0
    last_clear_counted := false
    group_mode := gm }

/-- Loop state at session start. -/
def initLoopState (t0 : ℚ) (gm : Bool) : LoopState :=
  { running := true
    paused := false
    sessionStart := t0
    totalPaused := 0
    pauseStart := none
    bot := initBot t0 gm }

/-- Modelled from the spec: the accumulated paused duration at instant `T`
of an alternating pause/resume toggle history, the pause currently in
progress included. -/
def specPausedDuration : List ℚ → ℚ → ℚ
  | [], _ => 0
  | [a], T => T - a
  | a :: b :: rest, T => (b - a) + specPausedDuration rest T

/-! ## Identifier inventory of config.py and the import in adb_controller.py -/

/-- The module-level names defined by `config.py`. -/
def configDefinedNames : List String :=
  ["POLL_INTERVAL", "MATCHMAKING_TIMEOUT", "QUEUE_TIMEOUT", "DUNGEON_TIMEOUT",
   "CLICK_DELAY", "CLICK_FUZZINESS_X", "CLICK_FUZZINESS_Y", "TIMING_FUZZINESS",
   "BUTTONS_RELATIVE", "MATCH_THRESHOLD", "fuzzy_time"]

/-- The names `adb_controller.py` imports from `config`
(`from config import CLICK_FUZZINESS, BUTTONS_RELATIVE`). -/
def adbControllerConfigImports : List String :=
  ["CLICK_FUZZINESS", "BUTTONS_RELATIVE"]

/-! ## Concrete sample values for scenarios and witnesses -/

/-- Scenario A: only `auto_match_btn` loaded, its confidence 0.95. -/
def scenarioA : Detector :=
  { templates := [tplAutoMatchBtn]
    confOf := fun n => if n = tplAutoMatchBtn then 19 / 20 else 0
    centerOf := fun _ => (0, 0) }

/-- Scenario B: `accept_btn` at confidence 0.93 and `leave_btn` at 0.88
against threshold 0.90. -/
def scenarioB : Detector :=
  { templates := [tplAcceptBtn, tplLeaveBtn]
    confOf := fun n =>
      if n = tplAcceptBtn then 93 / 100
      else if n = tplLeaveBtn then 88 / 100
      else 0
    centerOf := fun _ => (0, 0) }

/-- Both buttons loaded and matching above threshold, accept higher. -/
def scenarioBothAbove : Detector :=
  { templates := [tplAcceptBtn, tplLeaveBtn]
    confOf := fun n =>
      if n = tplAcceptBtn then 93 / 100
      else if n = tplLeaveBtn then 91 / 100
      else 0
    centerOf := fun _ => (0, 0) }

/-- Both buttons loaded and matching above threshold with equal confidence. -/
def scenarioTie : Detector :=
  { templates := [tplAcceptBtn, tplLeaveBtn]
    confOf := fun n =>
      if n = tplAcceptBtn then 92 / 100
      else if n = tplLeaveBtn then 92 / 100
      else 0
    centerOf := fun _ => (0, 0) }

/-- A sample controller state. -/
def sampleBot : BotS :=
  { state := .IDLE
    clear_count := 0
    queue_start := 0
    dungeon_start := 0
    last_clear_time := 0
    last_clear_counted := false
    group_mode := false }

/-- A sample controller state sitting in a dungeon with the completion
already counted. -/
def sampleCounted : BotS :=
  { state := .IN_DUNGEON
    clear_count := 4
    queue_start := 10
    dungeon_start := 40
    last_clear_time := 90
    last_clear_counted := true
    group_mode := false }

/-- A sample loop state currently paused since instant 10. -/
def samplePaused : LoopState :=
  { running := true
    paused := true
    sessionStart := 0
    totalPaused := 3
    pauseStart := some 10
    bot := sampleBot }

/-! ## Helper lemmas: state inference engine -/

theorem signalState_ne_unknown (d : Detector) (sg : Signal) :
    signalState d sg ≠ ScreenState.UNKNOWN := by
  cases sg <;> simp [signalState] <;> split <;> try split
  all_goals simp

theorem detect_state_eq_specPriorityClassify (d : Detector) :
    detect_state d = specPriorityClassify d := by
  cases h1 : (find_template d tplSleepScreen).found <;>
  cases h2 : (find_template d tplNoticeBanner).found <;>
  cases h3 : (find_template d tplAutoMatchBtn).found <;>
  cases h4 : (find_template d tplClearScreen).found <;>
  cases h5 : (find_template d tplAcceptBtn).found <;>
  cases h6 : (find_template d tplLeaveBtn).found <;>
  cases h7 : (find_template d tplMatchmaking).found <;>
  cases h8 : (find_template d tplMinimap).found <;>
    simp [detect_state, specPriorityClassify, signalOrder, signalFires, signalState,
      List.find?, h1, h2, h3, h4, h5, h6, h7, h8]


/-! ## Claim C2 -/

/-- Claim C2: for every frame and loaded template set, `detect_state`
evaluates signals in the fixed priority order SLEEP_SCREEN, ERROR_DIALOG,
READY, CLEAR, Accept/Leave resolved by confidence, QUEUING, IN_DUNGEON —
i.e. it returns the state of the first signal of the priority table that
exceeds its threshold — and returns UNKNOWN exactly when no signal fires;
with only auto_match_btn loaded at confidence 0.95 against threshold 0.90
the result is READY. -/
theorem detect_state_priority_order :
    (∀ d : Detector, detect_state d = specPriorityClassify d)
    ∧ (∀ d : Detector, detect_state d = ScreenState.UNKNOWN ↔
        ∀ sg ∈ signalOrder, signalFires d sg = false)
    ∧ detect_state scenarioA = ScreenState.READY := by
  refine ⟨detect_state_eq_specPriorityClassify, fun d => ?_, ?_⟩
  · rw [detect_state_eq_specPriorityClassify]
    unfold specPriorityClassify
    constructor
    · intro h sg hsg
      cases hfind : signalOrder.find? (signalFires d) with
      | none =>
          have := List.find?_eq_none.mp hfind sg hsg
          simpa using this
      | some sg2 =>
          rw [hfind] at h
          exact absurd h (signalState_ne_unknown d sg2)
    · intro h
      cases hfind : signalOrder.find? (signalFires d) with
      | none => simp
      | some sg2 =>
          have hmem := List.mem_of_find?_eq_some hfind
          have hfires := List.find?_some hfind
          rw [h sg2 hmem] at hfires
          simp at hfires
  · norm_num +decide [detect_state, find_template, scenarioA, tplSleepScreen,
      tplNoticeBanner, tplAutoMatchBtn, tplClearScreen, tplAcceptBtn, tplLeaveBtn,
      tplMatchmaking, tplMinimap, MATCH_THRESHOLD]

/-- Witness for C2: the priority characterization applied to the concrete
Scenario A detector. -/
theorem detect_state_priority_order_witness :
    detect_state scenarioA = specPriorityClassify scenarioA :=
  detect_state_priority_order.1 scenarioA

/-! ## Claim C3 -/

/-- Claim C3: when both accept_btn and leave_btn match above threshold (and
no higher-priority signal fired), the returned state corresponds to the
strictly higher-confidence template, a tie resolving to the fixed CLEAR
choice; with accept at 0.93 and leave at 0.88 against threshold 0.90 the
result is MATCH_FOUND. -/
theorem accept_leave_confidence_tiebreak :
    (∀ d : Detector,
      (find_template d tplSleepScreen).found = false →
      (find_template d tplNoticeBanner).found = false →
      (find_template d tplAutoMatchBtn).found = false →
      (find_template d tplClearScreen).found = false →
      (find_template d tplAcceptBtn).found = true →
      (find_template d tplLeaveBtn).found = true →
      detect_state d =
        (if (find_template d tplAcceptBtn).conf > (find_template d tplLeaveBtn).conf
         then ScreenState.MATCH_FOUND else ScreenState.CLEAR))
    ∧ detect_state scenarioB = ScreenState.MATCH_FOUND := by
  constructor
  · intro d h1 h2 h3 h4 h5 h6
    simp [detect_state, h1, h2, h3, h4, h5, h6]
  · norm_num +decide [detect_state, find_template, scenarioB, tplSleepScreen,
      tplNoticeBanner, tplAutoMatchBtn, tplClearScreen, tplAcceptBtn, tplLeaveBtn,
      tplMatchmaking, tplMinimap, MATCH_THRESHOLD]

/-- Witness for C3: the tie-break rule applied to a concrete detector where
both buttons match above threshold, accept at 0.93 and leave at 0.91. -/
theorem accept_leave_confidence_tiebreak_witness :
    detect_state scenarioBothAbove = ScreenState.MATCH_FOUND := by
  have h := accept_leave_confidence_tiebreak.1 scenarioBothAbove
    (by norm_num +decide [find_template, scenarioBothAbove, tplSleepScreen, tplAcceptBtn,
      tplLeaveBtn])
    (by norm_num +decide [find_template, scenarioBothAbove, tplNoticeBanner, tplAcceptBtn,
      tplLeaveBtn])
    (by norm_num +decide [find_template, scenarioBothAbove, tplAutoMatchBtn, tplAcceptBtn,
      tplLeaveBtn])
    (by norm_num +decide [find_template, scenarioBothAbove, tplClearScreen, tplAcceptBtn,
      tplLeaveBtn])
    (by norm_num +decide [find_template, scenarioBothAbove, tplAcceptBtn, tplLeaveBtn,
      MATCH_THRESHOLD])
    (by norm_num +decide [find_template, scenarioBothAbove, tplAcceptBtn, tplLeaveBtn,
      MATCH_THRESHOLD])
  rw [h]
  norm_num +decide [find_template, scenarioBothAbove, tplAcceptBtn, tplLeaveBtn,
    MATCH_THRESHOLD]

/-! ## Claim C10 -/

/-- Claim C10: when accept_btn and leave_btn both match above threshold with
exactly equal confidences (and no higher-priority signal fired),
`detect_state` returns CLEAR — the fixed tie-break default is the
leave/CLEAR side, MATCH_FOUND requiring a strictly greater accept
confidence. -/
theorem accept_leave_tie_resolves_clear :
    (∀ d : Detector,
      (find_template d tplSleepScreen).found = false →
      (find_template d tplNoticeBanner).found = false →
      (find_template d tplAutoMatchBtn).found = false →
      (find_template d tplClearScreen).found = false →
      (find_template d tplAcceptBtn).found = true →
      (find_template d tplLeaveBtn).found = true →
      (find_template d tplAcceptBtn).conf = (find_template d tplLeaveBtn).conf →
      detect_state d = ScreenState.CLEAR)
    ∧ (∀ d : Detector,
      (find_template d tplSleepScreen).found = false →
      (find_template d tplNoticeBanner).found = false →
      (find_template d tplAutoMatchBtn).found = false →
      (find_template d tplClearScreen).found = false →
      (find_template d tplAcceptBtn).found = true →
      (find_template d tplLeaveBtn).found = true →
      detect_state d = ScreenState.MATCH_FOUND →
      (find_template d tplAcceptBtn).conf > (find_template d tplLeaveBtn).conf)
    ∧ detect_state scenarioTie = ScreenState.CLEAR := by
  refine ⟨fun d h1 h2 h3 h4 h5 h6 heq => ?_, fun d h1 h2 h3 h4 h5 h6 hmf => ?_, ?_⟩
  · simp [detect_state, h1, h2, h3, h4, h5, h6, heq]
  · by_contra hle
    simp [detect_state, h1, h2, h3, h4, h5, h6, if_neg hle] at hmf
  · norm_num +decide [detect_state, find_template, scenarioTie, tplSleepScreen,
      tplNoticeBanner, tplAutoMatchBtn, tplClearScreen, tplAcceptBtn, tplLeaveBtn,
      tplMatchmaking, tplMinimap, MATCH_THRESHOLD]

/-- Witness for C10: the tie rule applied to a concrete detector with both
confidences equal to 0.92. -/
theorem accept_leave_tie_resolves_clear_witness :
    detect_state scenarioTie = ScreenState.CLEAR :=
  accept_leave_tie_resolves_clear.1 scenarioTie
    (by norm_num +decide [find_template, scenarioTie, tplSleepScreen, tplAcceptBtn,
      tplLeaveBtn])
    (by norm_num +decide [find_template, scenarioTie, tplNoticeBanner, tplAcceptBtn,
      tplLeaveBtn])
    (by norm_num +decide [find_template, scenarioTie, tplAutoMatchBtn, tplAcceptBtn,
      tplLeaveBtn])
    (by norm_num +decide [find_template, scenarioTie, tplClearScreen, tplAcceptBtn,
      tplLeaveBtn])
    (by norm_num +decide [find_template, scenarioTie, tplAcceptBtn, tplLeaveBtn,
      MATCH_THRESHOLD])
    (by norm_num +decide [find_template, scenarioTie, tplAcceptBtn, tplLeaveBtn,
      MATCH_THRESHOLD])
    (by norm_num +decide [find_template, scenarioTie, tplAcceptBtn, tplLeaveBtn,
      MATCH_THRESHOLD])

/-! ## Claim C9 -/

/-- Claim C9: `find_template` is total over template names — for every frame
and every name not among the loaded templates it returns
`(False, 0, 0, 0.0)` — so `detect_state` treats every missing template as a
non-match, and with an empty template store it classifies every frame
UNKNOWN. -/
theorem find_template_total_missing :
    (∀ (d : Detector) (name : String), name ∉ d.templates →
      find_template d name = ⟨false, 0, 0, 0⟩)
    ∧ (∀ (co : String → ℚ) (ce : String → ℕ × ℕ),
        detect_state { templates := [], confOf := co, centerOf := ce } =
          ScreenState.UNKNOWN) := by
  constructor
  · intro d name h
    simp [find_template, h]
  · intro co ce
    simp [detect_state, find_template]

/-- Witness for C9: `find_template` on Scenario A's detector and the
unloaded sleep_screen template. -/
theorem find_template_total_missing_witness :
    find_template scenarioA tplSleepScreen = ⟨false, 0, 0, 0⟩ :=
  find_template_total_missing.1 scenarioA tplSleepScreen
    (by simp +decide [scenarioA, tplSleepScreen, tplAutoMatchBtn])

/-! ## Helper lemmas: reactive controller -/

theorem react_in_dungeon_eq (s : BotS) (now q : ℚ) :
    react s ScreenState.IN_DUNGEON now q = ({ s with state := .IN_DUNGEON }, []) := rfl

theorem react_match_found_eq (s : BotS) (now q : ℚ) :
    react s ScreenState.MATCH_FOUND now q =
      ({ s with
          state := .IN_DUNGEON
          dungeon_start := now
          last_clear_counted := false }, [btnAccept]) := rfl

theorem react_clear_of_counted (s : BotS) (now q : ℚ)
    (h : s.last_clear_counted = true) :
    react s ScreenState.CLEAR now q = (s, [btnLeave]) := by
  simp [react, h]

theorem react_clear_of_not_counted (s : BotS) (now q : ℚ)
    (h : s.last_clear_counted = false) :
    react s ScreenState.CLEAR now q = (completeDungeon s now, [btnLeave]) := by
  simp [react, h]

theorem foldReact_cons (s : BotS) (d : ScreenState) (t q : ℚ)
    (l : List (ScreenState × ℚ × ℚ)) :
    foldReact s ((d, t, q) :: l) = foldReact (react s d t q).1 l := rfl

theorem foldReact_append (s : BotS) (l1 l2 : List (ScreenState × ℚ × ℚ)) :
    foldReact s (l1 ++ l2) = foldReact (foldReact s l1) l2 := by
  simp [foldReact, List.foldl_append]

theorem foldReact_dungeon (ds : List (ℚ × ℚ)) : ∀ s : BotS,
    ((foldReact s (ds.map fun p => (ScreenState.IN_DUNGEON, p.1, p.2))).clear_count
        = s.clear_count)
    ∧ ((foldReact s (ds.map fun p => (ScreenState.IN_DUNGEON, p.1, p.2))).last_clear_counted
        = s.last_clear_counted) := by
  induction ds with
  | nil => intro s; exact ⟨rfl, rfl⟩
  | cons a rest ih =>
      intro s
      simp only [List.map_cons]
      rw [foldReact_cons]
      exact ih ({ s with state := .IN_DUNGEON })

theorem foldReact_clear_counted (cs : List (ℚ × ℚ)) : ∀ s : BotS,
    s.last_clear_counted = true →
    foldReact s (cs.map fun p => (ScreenState.CLEAR, p.1, p.2)) = s := by
  induction cs with
  | nil => intro s _; rfl
  | cons a rest ih =>
      intro s h
      simp only [List.map_cons]
      rw [foldReact_cons]
      have hr : (react s ScreenState.CLEAR a.1 a.2).1 = s := by
        rw [react_clear_of_counted s a.1 a.2 h]
      rw [hr]
      exact ih s h

/-! ## Claim C1 -/

/-- Claim C1: across one dungeon run — a MATCH_FOUND acceptance, then
IN_DUNGEON polls, then one or more consecutive CLEAR observations —
`clear_count` increases by exactly 1; `_complete_dungeon` increments the
counter, sets `last_clear_time` to now and sets `last_clear_counted`; the
CLEAR reaction counts only when the flag is false; and the flag is cleared
only by the queue-entry tap of the READY branch and the match-accept tap of
the MATCH_FOUND branch. -/
theorem clear_count_increments_once_per_run :
    (∀ (s : BotS) (t q : ℚ) (ds : List (ℚ × ℚ)) (c : ℚ × ℚ) (cs : List (ℚ × ℚ)),
      (foldReact s ((ScreenState.MATCH_FOUND, t, q) ::
        ((ds.map fun p => (ScreenState.IN_DUNGEON, p.1, p.2)) ++
         ((c :: cs).map fun p => (ScreenState.CLEAR, p.1, p.2))))).clear_count
        = s.clear_count + 1)
    ∧ (∀ (s : BotS) (now : ℚ),
        (completeDungeon s now).clear_count = s.clear_count + 1
        ∧ (completeDungeon s now).last_clear_time = now
        ∧ (completeDungeon s now).last_clear_counted = true)
    ∧ (∀ (s : BotS) (t q : ℚ), s.last_clear_counted = true →
        (react s ScreenState.CLEAR t q).1.clear_count = s.clear_count)
    ∧ (∀ (s : BotS) (d : ScreenState) (t q : ℚ), s.last_clear_counted = true →
        (react s d t q).1.last_clear_counted = false →
        d = ScreenState.READY ∨ d = ScreenState.MATCH_FOUND) := by
  refine ⟨?_, ?_, ?_, ?_⟩
  · intro s t q ds c cs
    rw [foldReact_cons, react_match_found_eq]
    simp only [List.map_cons]
    rw [foldReact_append]
    set s1 : BotS :=
      { s with state := .IN_DUNGEON, dungeon_start := t, last_clear_counted := false }
    set s2 := foldReact s1 (ds.map fun p => (ScreenState.IN_DUNGEON, p.1, p.2)) with hs2
    have hd := foldReact_dungeon ds s1
    have hcount : s2.clear_count = s.clear_count := hd.1
    have hflag : s2.last_clear_counted = false := hd.2
    rw [foldReact_cons]
    have hc : (react s2 ScreenState.CLEAR c.1 c.2).1 = completeDungeon s2 c.1 := by
      rw [react_clear_of_not_counted s2 c.1 c.2 hflag]
    rw [hc]
    rw [foldReact_clear_counted cs (completeDungeon s2 c.1) rfl]
    simp [completeDungeon, hcount]
  · intro s now
    exact ⟨rfl, rfl, rfl⟩
  · intro s t q h
    rw [react_clear_of_counted s t q h]
  · intro s d t q h hcleared
    cases d
    case READY => exact Or.inl rfl
    case MATCH_FOUND => exact Or.inr rfl
    all_goals
      exfalso
      simp only [react] at hcleared
      repeat' split at hcleared
      all_goals simp_all

/-- Witness for C1: a concrete run (accept, one dungeon poll, two CLEAR
polls) starting from the sample controller state, and the counted-flag
guard at a state whose completion was already counted. -/
theorem clear_count_increments_once_per_run_witness :
    (foldReact sampleBot
      [(ScreenState.MATCH_FOUND, 0, 0), (ScreenState.IN_DUNGEON, 1, 0),
       (ScreenState.CLEAR, 2, 0), (ScreenState.CLEAR, 3, 0)]).clear_count = 0 + 1
    ∧ (react sampleCounted ScreenState.CLEAR 95 0).1.clear_count = 4 :=
  ⟨clear_count_increments_once_per_run.1 sampleBot 0 0 [(1, 0)] (2, 0) [(3, 0)],
   clear_count_increments_once_per_run.2.2.1 sampleCounted 95 0 rfl⟩

/-! ## Claim C5 -/

/-- Claim C5 counterexample: in a concrete controller state, when the
classifier reports SLEEP_SCREEN the reaction taps nothing and changes no
controller field — no unlock-and-re-navigate recovery sequence is
performed, contrary to the claim. -/
theorem sleep_screen_recovery_counterexample :
    react sampleCounted ScreenState.SLEEP_SCREEN 100 0 = (sampleCounted, []) := rfl

/-- Claim C5 (amended): when the classifier reports SLEEP_SCREEN, in any
BotState, the controller performs no reaction at all — `_react_to_state`
has no SLEEP_SCREEN branch, so the observation falls through every
dispatch arm with no tap issued and the controller state unchanged. -/
theorem sleep_screen_no_reaction (s : BotS) (now q : ℚ) :
    react s ScreenState.SLEEP_SCREEN now q = (s, []) := rfl

/-! ## Claim C6 -/

/-- Claim C6: in the QUEUING reaction, when the OCR elapsed-queue reading is
unavailable (0), the controller falls back to its own queue_start timer: if
now − queue_start exceeds QUEUE_TIMEOUT (180 s) it taps cancel_queue and
resets to IDLE, otherwise it pre-taps accept and remains QUEUING. -/
theorem queueing_ocr_zero_fallback :
    (∀ (s : BotS) (now : ℚ), now - s.queue_start > QUEUE_TIMEOUT →
      react s ScreenState.QUEUING now 0 =
        ({ s with state := .IDLE }, [btnCancelQueue]))
    ∧ (∀ (s : BotS) (now : ℚ), ¬(now - s.queue_start > QUEUE_TIMEOUT) →
      react s ScreenState.QUEUING now 0 =
        ({ s with state := .QUEUING }, [btnAccept])) := by
  constructor <;> intro s now h <;> norm_num [react, h]

/-- Witness for C6: the fallback timer decision at concrete instants 200
(timeout exceeded) and 100 (still queuing) from the sample state. -/
theorem queueing_ocr_zero_fallback_witness :
    react sampleBot ScreenState.QUEUING 200 0 =
      ({ sampleBot with state := .IDLE }, [btnCancelQueue])
    ∧ react sampleBot ScreenState.QUEUING 100 0 =
      ({ sampleBot with state := .QUEUING }, [btnAccept]) :=
  ⟨queueing_ocr_zero_fallback.1 sampleBot 200
      (by norm_num [sampleBot, QUEUE_TIMEOUT]),
   queueing_ocr_zero_fallback.2 sampleBot 100
      (by norm_num [sampleBot, QUEUE_TIMEOUT])⟩

/-! ## Helper lemmas: poll loop guards -/

theorem pollIter_not_running (st : LoopState) (now : ℚ) (d : ScreenState) (q : ℚ)
    (h : st.running = false) : pollIter st now d q = st := by
  simp [pollIter, h]

theorem runLoop_not_running : ∀ (polls : List (ℚ × ScreenState × ℚ)) (st : LoopState),
    st.running = false → runLoop st polls = st := by
  intro polls
  induction polls with
  | nil => intro st _; rfl
  | cons p rest ih =>
      intro st h
      show runLoop (pollIter st p.1 p.2.1 p.2.2) rest = st
      rw [pollIter_not_running st p.1 p.2.1 p.2.2 h]
      exact ih st h

theorem runLoop_dungeon_stops : ∀ (ts : List ℚ) (st : LoopState) (t0 : ℚ),
    st.paused = false → st.bot.last_clear_time = t0 →
    (∃ t ∈ ts, t > t0 + inactivityTimeout) →
    (runLoop st (dungeonTrace ts)).running = false := by
  intro ts
  induction ts with
  | nil => intro st t0 _ _ hex; simp at hex
  | cons t rest ih =>
      intro st t0 hp hl hex
      show (runLoop (pollIter st t ScreenState.IN_DUNGEON 0) (dungeonTrace rest)).running
            = false
      by_cases hr : st.running = true
      · by_cases hg : t - st.bot.last_clear_time > inactivityTimeout
        · have h1 : pollIter st t ScreenState.IN_DUNGEON 0 = { st with running := false } := by
            simp [pollIter, hr, hp, hg]
          rw [h1, runLoop_not_running (dungeonTrace rest) _ rfl]
        · by_cases hm : activeElapsed st t > maxRuntime
          · have h1 : pollIter st t ScreenState.IN_DUNGEON 0 =
                { st with running := false } := by
              simp [pollIter, hr, hp, hg, hm]
            rw [h1, runLoop_not_running (dungeonTrace rest) _ rfl]
          · have h1 : pollIter st t ScreenState.IN_DUNGEON 0 =
                { st with bot := { st.bot with state := .IN_DUNGEON } } := by
              simp [pollIter, hr, hp, hg, hm, react]
            rw [h1]
            refine ih _ t0 hp hl ?_
            · rcases hex with ⟨x, hx, hxgt⟩
              rcases List.mem_cons.mp hx with hxe | hxr
              · exfalso
                rw [hl] at hg
                rw [hxe] at hxgt
                exact hg (by linarith)
              · exact ⟨x, hxr, hxgt⟩
      · have hf : st.running = false := by
          cases hb : st.running
          · rfl
          · exact absurd hb hr
        rw [pollIter_not_running st t ScreenState.IN_DUNGEON 0 hf,
          runLoop_not_running (dungeonTrace rest) st hf]
        exact hf

theorem exists_gt_mem_takeWhile (dlt B : ℚ) :
    ∀ (ts : List ℚ) (c : ℚ), c ≤ B →
    (∀ t ∈ ts.head?, t ≤ c + dlt) →
    List.Chain' (fun a b => b ≤ a + dlt) ts →
    (∃ t ∈ ts, t > B) →
    ∃ t ∈ ts.takeWhile (fun t => decide (t ≤ B + dlt)), t > B := by
  intro ts
  induction ts with
  | nil => intro c _ _ _ hex; simp at hex
  | cons t rest ih =>
      intro c hc hh hch hex
      have ht : t ≤ c + dlt := hh t (by simp)
      have htB : t ≤ B + dlt := le_trans ht (by linarith)
      by_cases hgt : t > B
      · refine ⟨t, ?_, hgt⟩
        rw [List.takeWhile_cons, if_pos (by simp [htB])]
        simp
      · push_neg at hgt
        rcases hex with ⟨x, hx, hxgt⟩
        rcases List.mem_cons.mp hx with hxe | hxr
        · exfalso
          rw [hxe] at hxgt
          exact absurd hxgt (not_lt.mpr hgt)
        · have hch2 := List.chain'_cons'.mp hch
          rcases ih t hgt hch2.1 hch2.2 ⟨x, hxr, hxgt⟩ with ⟨y, hy, hygt⟩
          refine ⟨y, ?_, hygt⟩
          rw [List.takeWhile_cons, if_pos (by simp [htB])]
          exact List.mem_cons_of_mem t hy

/-! ## Claim C4 -/

/-- Claim C4: if `last_clear_time` never advances (every poll observes
IN_DUNGEON), the controller stops within `inactivityTimeout` plus one poll
interval of session start: for any poll trace starting within one interval
of session start whose gaps are at most one interval and which reaches past
the deadline, the polls up to wall-clock `t0 + inactivityTimeout + Δ`
already leave `running = false`; the guard is checked before per-state
dispatch on every non-paused iteration (firing leaves the controller fields
untouched), and once `running` is false every later iteration is a no-op,
so the stop happens exactly once. -/
theorem inactivity_guard_stops_bot :
    (∀ (t0 dlt t1 : ℚ) (rest : List ℚ) (gm : Bool),
      0 ≤ dlt → t1 ≤ t0 + dlt →
      List.Chain' (fun a b => b ≤ a + dlt) (t1 :: rest) →
      (∃ t ∈ t1 :: rest, t > t0 + inactivityTimeout) →
      (runLoop (initLoopState t0 gm) (dungeonTrace (t1 :: rest))).running = false
      ∧ (runLoop (initLoopState t0 gm)
          (dungeonTrace ((t1 :: rest).takeWhile
            (fun t => decide (t ≤ t0 + inactivityTimeout + dlt))))).running = false)
    ∧ (∀ (st : LoopState) (now : ℚ) (d : ScreenState) (q : ℚ),
        st.running = true → st.paused = false →
        now - st.bot.last_clear_time > inactivityTimeout →
        pollIter st now d q = { st with running := false })
    ∧ (∀ (st : LoopState) (now : ℚ) (d : ScreenState) (q : ℚ),
        st.running = false → pollIter st now d q = st) := by
  refine ⟨fun t0 dlt t1 rest gm h0 h1 hch hex => ⟨?_, ?_⟩, ?_, ?_⟩
  · exact runLoop_dungeon_stops (t1 :: rest) (initLoopState t0 gm) t0 rfl rfl hex
  · have hto : (0:ℚ) ≤ inactivityTimeout := by norm_num [inactivityTimeout]
    have hexT := exists_gt_mem_takeWhile dlt (t0 + inactivityTimeout) (t1 :: rest) t0
      (by linarith)
      (by intro t ht; simp at ht; rw [← ht]; linarith)
      hch hex
    exact runLoop_dungeon_stops _ (initLoopState t0 gm) t0 rfl rfl hexT
  · intro st now d q hr hp hg
    simp [pollIter, hr, hp, hg]
  · intro st now d q hr
    exact pollIter_not_running st now d q hr

/-- Witness for C4: a concrete in-dungeon trace from session start 0 with
poll gaps at most 1000 s, crossing the 1800 s inactivity deadline at
t = 2300; the loop ends stopped. -/
theorem inactivity_guard_stops_bot_witness :
    (runLoop (initLoopState 0 false) (dungeonTrace [500, 1400, 2300])).running = false :=
  (inactivity_guard_stops_bot.1 0 1000 500 [1400, 2300] false
    (by norm_num)
    (by norm_num)
    (by norm_num [List.chain'_cons, List.chain'_singleton])
    ⟨2300, by simp, by norm_num [inactivityTimeout]⟩).1

/-! ## Helper lemmas: pause accounting -/

theorem list_rat_two_step_induction {P : List ℚ → Prop} (h0 : P [])
    (h1 : ∀ a, P [a]) (h2 : ∀ a b l, P l → P (a :: b :: l)) : ∀ l, P l
  | [] => h0
  | [a] => h1 a
  | a :: b :: l => h2 a b l (list_rat_two_step_induction h0 h1 h2 l)

theorem togglePause_fold (T : ℚ) : ∀ (ts : List ℚ) (st : LoopState),
    st.paused = false → st.pauseStart = none →
    activeElapsed (List.foldl togglePause st ts) T
        = activeElapsed st T - specPausedDuration ts T
    ∧ (List.foldl togglePause st ts).bot.last_clear_time
        - (List.foldl togglePause st ts).totalPaused
        = st.bot.last_clear_time - st.totalPaused
    ∧ (List.foldl togglePause st ts).sessionStart = st.sessionStart := by
  refine list_rat_two_step_induction ?_ ?_ ?_
  · intro st hp hps
    refine ⟨by simp [specPausedDuration], rfl, rfl⟩
  · intro a st hp hps
    have h1 : List.foldl togglePause st [a] =
        { st with paused := true, pauseStart := some a } := by
      show togglePause st a = _
      simp [togglePause, hp, hps]
    rw [h1]
    refine ⟨?_, rfl, rfl⟩
    simp [activeElapsed, specPausedDuration, hps]
    ring
  · intro a b l ih st hp hps
    have h1 : List.foldl togglePause st (a :: b :: l) =
        List.foldl togglePause
          { st with
              totalPaused := st.totalPaused + (b - a)
              bot := { st.bot with
                         last_clear_time := st.bot.last_clear_time + (b - a) } } l := by
      show List.foldl togglePause (togglePause (togglePause st a) b) l = _
      have ha : togglePause st a = { st with paused := true, pauseStart := some a } := by
        simp [togglePause, hp, hps]
      rw [ha]
      have hb : togglePause { st with paused := true, pauseStart := some a } b =
          { st with
              totalPaused := st.totalPaused + (b - a)
              bot := { st.bot with
                         last_clear_time := st.bot.last_clear_time + (b - a) } } := by
        simp [togglePause, hp, hps]
      rw [hb]
    rw [h1]
    rcases ih { st with
        totalPaused := st.totalPaused + (b - a)
        bot := { st.bot with
                   last_clear_time := st.bot.last_clear_time + (b - a) } } hp hps
      with ⟨ih1, ih2, ih3⟩
    refine ⟨?_, ?_, ih3⟩
    · rw [ih1]
      simp [activeElapsed, specPausedDuration, hps]
      ring
    · rw [ih2]
      simp

/-! ## Claim C8 -/

/-- Claim C8: pause time is excluded from activity accounting — after any
alternating pause/resume toggle history the reported active elapsed time
equals wall-clock elapsed time since session start minus the accumulated
paused duration, a pause currently in progress included (the model makes
this exact, hence within one poll interval); and each resume advances
`last_clear_time` by exactly the pause duration, so `last_clear_time` always
leads the initial value by the total completed paused duration and a
deliberate pause never triggers the inactivity guard. -/
theorem pause_accounting_exact :
    (∀ (t0 T : ℚ) (gm : Bool) (ts : List ℚ),
      activeElapsed (List.foldl togglePause (initLoopState t0 gm) ts) T
        = (T - t0) - specPausedDuration ts T)
    ∧ (∀ (t0 : ℚ) (gm : Bool) (ts : List ℚ),
      (List.foldl togglePause (initLoopState t0 gm) ts).bot.last_clear_time
        = t0 + (List.foldl togglePause (initLoopState t0 gm) ts).totalPaused)
    ∧ (∀ (st : LoopState) (p now : ℚ), st.paused = true → st.pauseStart = some p →
        (togglePause st now).bot.last_clear_time
            = st.bot.last_clear_time + (now - p)
        ∧ (togglePause st now).totalPaused = st.totalPaused + (now - p)
        ∧ (togglePause st now).paused = false) := by
  refine ⟨fun t0 T gm ts => ?_, fun t0 gm ts => ?_, fun st p now hp hps => ?_⟩
  · have h := (togglePause_fold T ts (initLoopState t0 gm) rfl rfl).1
    rw [h]
    simp [activeElapsed, initLoopState]
  · have h := (togglePause_fold 0 ts (initLoopState t0 gm) rfl rfl).2.1
    have h2 : (initLoopState t0 gm).bot.last_clear_time
        - (initLoopState t0 gm).totalPaused = t0 := by
      simp [initLoopState, initBot]
    rw [h2] at h
    linarith [h]
  · simp [togglePause, hp, hps]

/-- Witness for C8: resuming the concrete paused sample state (paused since
instant 10) at instant 25 adds the 15 s pause to both `last_clear_time` and
`totalPaused` and unpauses. -/
theorem pause_accounting_exact_witness :
    (togglePause samplePaused 25).bot.last_clear_time
        = samplePaused.bot.last_clear_time + (25 - 10)
    ∧ (togglePause samplePaused 25).totalPaused = samplePaused.totalPaused + (25 - 10)
    ∧ (togglePause samplePaused 25).paused = false :=
  pause_accounting_exact.2.2 samplePaused 10 25 rfl rfl

/-! ## Claim C7 -/

/-- Claim C7 (code-bug evidence): the tap jitter cannot use the axis-specific
ranges the claim describes — `adb_controller.py` imports `CLICK_FUZZINESS`
from `config`, but `config.py` defines only the axis-specific
`CLICK_FUZZINESS_X` and `CLICK_FUZZINESS_Y`, so the imported name does not
exist in the configuration module, and `ADBController.tap` as written draws
both axis offsets from that single shared range. -/
theorem click_fuzziness_import_mismatch :
    "CLICK_FUZZINESS" ∈ adbControllerConfigImports
    ∧ "CLICK_FUZZINESS" ∉ configDefinedNames
    ∧ "CLICK_FUZZINESS_X" ∈ configDefinedNames
    ∧ "CLICK_FUZZINESS_Y" ∈ configDefinedNames := by
  refine ⟨?_, ?_, ?_, ?_⟩ <;>
    simp +decide [adbControllerConfigImports, configDefinedNames]
